import Mathlib

set_option maxRecDepth 1000000

/-!
Verification development for the Taiwan stock scanner's scoring and
classification engine (`stock_scanner.py`).  Prices, moving averages and
scores are modelled over `ℚ`; a pandas `NaN` entry is modelled as `none`
of an `Option ℚ`.  Division follows Lean's total-division convention
(`x / 0 = 0`); every place where the source could divide by zero is
guarded exactly as the source guards it.
-/

namespace StockScanner

/-- One instrument's bar history: aligned lists of dates (as day keys),
highs, lows, closes and volumes, mirroring the OHLCV dataframe. -/
structure Bars where
  dates : List ℕ
  highs : List ℚ
  lows : List ℚ
  closes : List ℚ
  volumes : List ℚ

/-- Scanner configuration, mirroring `TaiwanStockScanner.__init__`. -/
structure Config where
  trendW : ℚ
  momentumW : ℚ
  rsW : ℚ
  instW : ℚ
  maShort : ℕ
  maLong : ℕ
  volMult : ℚ
  atrPeriod : ℕ
  stopMult : ℚ
  enableFundamentalFilter : Bool

/-- Default parameter values of `TaiwanStockScanner.__init__`. -/
def defaultConfig : Config :=
  ⟨2/5, 3/10, 1/5, 1/10, 20, 60, 6/5, 14, 2, true⟩

/-- `series.rolling(window=w).mean()` at row `i`: defined once `w` rows
exist, as the arithmetic mean of the trailing `w` values. -/
def rollingMean (w : ℕ) (xs : List ℚ) (i : ℕ) : Option ℚ :=
  if 1 ≤ w ∧ w ≤ i + 1 ∧ i < xs.length then
    some ((((xs.take (i + 1)).drop (i + 1 - w)).sum) / (w : ℚ))
  else none

/-- `series.rolling(window=w, min_periods=1).max()` at row `i`:
the maximum of the trailing (up to `w`) values. -/
def rollingMax (w : ℕ) (xs : List ℚ) (i : ℕ) : Option ℚ :=
  match (xs.take (i + 1)).drop (i + 1 - w) with
  | [] => none
  | y :: ys => some (ys.foldl max y)

/-- True range at bar `i` (`calculate_indicators`): the row-wise `max`
skips the undefined prior-close terms at bar 0. -/
def trueRange (df : Bars) (i : ℕ) : ℚ :=
  if i = 0 then df.highs.getD 0 0 - df.lows.getD 0 0
  else
    max (df.highs.getD i 0 - df.lows.getD i 0)
      (max (abs (df.highs.getD i 0 - df.closes.getD (i - 1) 0))
        (abs (df.lows.getD i 0 - df.closes.getD (i - 1) 0)))

/-- `ATR`: simple rolling mean of the true range over `period` bars. -/
def atrAt (period : ℕ) (df : Bars) (i : ℕ) : Option ℚ :=
  if 1 ≤ period ∧ period ≤ i + 1 ∧ i < df.closes.length then
    some ((((List.range period).map (fun k => trueRange df (i - k))).sum) / (period : ℚ))
  else none

/-- Positive part of the daily close delta (`delta.where(delta > 0, 0.0)`);
bar 0 has no delta and yields 0. -/
def gainAt (closes : List ℚ) (i : ℕ) : ℚ :=
  if 1 ≤ i ∧ i < closes.length then
    if 0 < closes.getD i 0 - closes.getD (i - 1) 0 then
      closes.getD i 0 - closes.getD (i - 1) 0
    else 0
  else 0

/-- Negative part of the daily close delta (`-delta.where(delta < 0, 0.0)`). -/
def lossAt (closes : List ℚ) (i : ℕ) : ℚ :=
  if 1 ≤ i ∧ i < closes.length then
    if closes.getD i 0 - closes.getD (i - 1) 0 < 0 then
      -(closes.getD i 0 - closes.getD (i - 1) 0)
    else 0
  else 0

/-- Wilder smoothing of `calculate_rsi_wilder`: undefined before bar
`period - 1`, seeded there with the simple mean of the first `period`
raw values, then `value*α + previous*(1-α)` with `α = 1/period`. -/
def wilderSmooth (f : ℕ → ℚ) (period : ℕ) : ℕ → Option ℚ
  | 0 => if period = 1 then some (((List.range 1).map f).sum / (period : ℚ)) else none
  | i + 1 =>
    if i + 2 < period then none
    else if i + 2 = period then some (((List.range period).map f).sum / (period : ℚ))
    else
      match wilderSmooth f period i with
      | some g => some (f (i + 1) * (1 / (period : ℚ)) + g * (1 - 1 / (period : ℚ)))
      | none => none

/-- Smoothed average gain of `calculate_rsi_wilder`. -/
def smoothedGain (closes : List ℚ) (period i : ℕ) : Option ℚ :=
  wilderSmooth (gainAt closes) period i

/-- Smoothed average loss of `calculate_rsi_wilder`. -/
def smoothedLoss (closes : List ℚ) (period i : ℕ) : Option ℚ :=
  wilderSmooth (lossAt closes) period i

/-- `RSI14` of `calculate_rsi_wilder`: the smoothed loss is replaced by
`NaN` when it is 0 (`smoothed_loss.replace(0, np.nan)`), so the
oscillator is undefined there; otherwise `100 - 100/(1 + gain/loss)`. -/
def rsiWilder (closes : List ℚ) (period i : ℕ) : Option ℚ :=
  if i < closes.length then
    match smoothedGain closes period i, smoothedLoss closes period i with
    | some g, some l => if l = 0 then none else some (100 - 100 / (1 + g / l))
    | _, _ => none
  else none

/-- Inner merge of the instrument's `(date, close)` series with the
benchmark's `(date, close)` series on the date key
(`pd.merge(..., how='inner')` of `calculate_relative_strength`). -/
def mergeOn (stock bench : List (ℕ × ℚ)) : List (ℕ × ℚ × ℚ) :=
  stock.filterMap (fun p => (bench.lookup p.1).map (fun bc => (p.1, p.2, bc)))

/-- Instrument close at merged row `i`. -/
def stockCloseAt (merged : List (ℕ × ℚ × ℚ)) (i : ℕ) : ℚ :=
  (merged.getD i (0, 0, 0)).2.1

/-- Benchmark close at merged row `i`. -/
def benchCloseAt (merged : List (ℕ × ℚ × ℚ)) (i : ℕ) : ℚ :=
  (merged.getD i (0, 0, 0)).2.2

/-- The pair (instrument %-change, benchmark %-change) at merged row `i`,
exactly as the two sequential loops of `calculate_relative_strength`
leave it: both series start at 0.0; the first loop fills rows at or past
`lookback = min 250 n` from the row `lookback` earlier; when `n < 250`
the second loop overwrites rows from `min 60 n` on from row 0.  Rows
whose baseline prices are not positive are left unchanged. -/
def pctPair (merged : List (ℕ × ℚ × ℚ)) (i : ℕ) : ℚ × ℚ :=
  let n := merged.length
  let lookback := min 250 n
  let base : ℚ × ℚ :=
    if lookback ≤ i ∧ i < n then
      if 0 < stockCloseAt merged (i - lookback) ∧ 0 < benchCloseAt merged (i - lookback) then
        ((stockCloseAt merged i / stockCloseAt merged (i - lookback) - 1) * 100,
          (benchCloseAt merged i / benchCloseAt merged (i - lookback) - 1) * 100)
      else (0, 0)
    else (0, 0)
  if n < 250 ∧ min 60 n ≤ i ∧ i < n then
    if 0 < stockCloseAt merged 0 ∧ 0 < benchCloseAt merged 0 then
      ((stockCloseAt merged i / stockCloseAt merged 0 - 1) * 100,
        (benchCloseAt merged i / benchCloseAt merged 0 - 1) * 100)
    else base
  else base

/-- `rs_ratio` at merged row `i`: a zero benchmark %-change is replaced
by `NaN` and then filled with 1.0 (`replace(0, np.nan)` + `fillna(1.0)`). -/
def ratioAt (merged : List (ℕ × ℚ × ℚ)) (i : ℕ) : ℚ :=
  if (pctPair merged i).2 = 0 then 1 else (pctPair merged i).1 / (pctPair merged i).2

/-- The fixed ratio-to-score thresholds of `calculate_relative_strength`. -/
def scoreOfRatio (r : ℚ) : ℚ :=
  if 3/2 < r then 100
  else if 6/5 < r then 80
  else if 1 < r then 60
  else if 4/5 < r then 40
  else 20

/-- `calculate_relative_strength`: 50 everywhere when the benchmark is
unavailable or the date-aligned overlap is shorter than 60 rows;
otherwise instrument bars found in the overlap get the threshold score
of their ratio and instrument bars outside the overlap keep 50. -/
def relStrength (stock : List (ℕ × ℚ)) (bench : Option (List (ℕ × ℚ))) (i : ℕ) : ℚ :=
  match bench with
  | none => 50
  | some b =>
    let merged := mergeOn stock b
    if min 250 merged.length < 60 then 50
    else
      match stock[i]? with
      | some p =>
        match merged.findIdx? (fun m => m.1 == p.1) with
        | some j => scoreOfRatio (ratioAt merged j)
        | none => 50
      | none => 50

/-- Trend foundation of `calculate_scores`:
close > short MA > long MA with all three defined. -/
def trendFoundation (cfg : Config) (df : Bars) (i : ℕ) : Bool :=
  match df.closes[i]?, rollingMean cfg.maShort df.closes i,
      rollingMean cfg.maLong df.closes i with
  | some c, some ms, some ml => decide (ms < c) && decide (ml < ms)
  | _, _, _ => false

/-- Golden cross of `calculate_scores`: 5-day MA > short MA, both defined. -/
def goldenCross (cfg : Config) (df : Bars) (i : ℕ) : Bool :=
  match rollingMean 5 df.closes i, rollingMean cfg.maShort df.closes i with
  | some m5, some ms => decide (ms < m5)
  | _, _ => false

/-- Near-support condition of `calculate_scores`:
`|close − short MA| / short MA ≤ 0.03`, both defined. -/
def priceNearMAShort (cfg : Config) (df : Bars) (i : ℕ) : Bool :=
  match df.closes[i]?, rollingMean cfg.maShort df.closes i with
  | some c, some ms => decide (abs ((c - ms) / ms) ≤ 3/100)
  | _, _ => false

/-- Long-term confirmation of `calculate_scores`:
close > 50-day MA > 200-day MA with all three defined. -/
def longTermTrend (df : Bars) (i : ℕ) : Bool :=
  match df.closes[i]?, rollingMean 50 df.closes i, rollingMean 200 df.closes i with
  | some c, some m50, some m200 => decide (m50 < c) && decide (m200 < m50)
  | _, _, _ => false

/-- Unweighted base trend value of `calculate_scores`. -/
def baseTrendScore (cfg : Config) (df : Bars) (i : ℕ) : ℚ :=
  if trendFoundation cfg df i then
    if goldenCross cfg df i && priceNearMAShort cfg df i then 100
    else if goldenCross cfg df i then 80
    else if priceNearMAShort cfg df i then 70
    else 50
  else 0

/-- Long-term bonus of `calculate_scores`. -/
def longTermBonus (cfg : Config) (df : Bars) (i : ℕ) : ℚ :=
  if longTermTrend df i && trendFoundation cfg df i then 5 else 0

/-- Weighted `Trend_Score` column. -/
def trendScoreW (cfg : Config) (df : Bars) (i : ℕ) : ℚ :=
  min (baseTrendScore cfg df i + longTermBonus cfg df i) 100 * cfg.trendW

/-- Weighted `Momentum_Score` column:
100 when volume > vol_multiplier × 5-day volume MA, else 0. -/
def momentumScoreW (cfg : Config) (df : Bars) (i : ℕ) : ℚ :=
  (match df.volumes[i]?, rollingMean 5 df.volumes i with
   | some v, some mv => if cfg.volMult * mv < v then (100 : ℚ) else 0
   | _, _ => 0) * cfg.momentumW

/-- Weighted `RS_Score` column, built from the instrument's own
date/close series and the optional benchmark series. -/
def rsScoreW (cfg : Config) (df : Bars) (bench : Option (List (ℕ × ℚ))) (i : ℕ) : ℚ :=
  relStrength (df.dates.zip df.closes) bench i * cfg.rsW

/-- Weighted `Institutional_Score` column (fixed neutral 50). -/
def instScoreW (cfg : Config) : ℚ := 50 * cfg.instW

/-- `Total_Score` column of `calculate_scores`: the weighted component
sum, forced to 0 whenever the trend foundation fails. -/
def totalScore (cfg : Config) (df : Bars) (bench : Option (List (ℕ × ℚ))) (i : ℕ) : ℚ :=
  if trendFoundation cfg df i then
    trendScoreW cfg df i + momentumScoreW cfg df i + rsScoreW cfg df bench i + instScoreW cfg
  else 0

/-- `Stop_Loss_Price`: `close − ATR × stop multiplier`, defined only when
ATR and close are defined and ATR > 0. -/
def stopLossP (period : ℕ) (mult : ℚ) (df : Bars) (i : ℕ) : Option ℚ :=
  match atrAt period df i, df.closes[i]? with
  | some a, some c => if 0 < a then some (c - a * mult) else none
  | _, _ => none

/-- `Trailing_Stop_Price`: defaults to the static stop-loss; for series
longer than one bar the candidate `rolling 14-day max close − ATR × mult`
replaces it exactly when it exceeds the static stop-loss and is below
the current close. -/
def trailingStop (period : ℕ) (mult : ℚ) (df : Bars) (i : ℕ) : Option ℚ :=
  if df.closes.length ≤ 1 then stopLossP period mult df i
  else
    match rollingMax 14 df.closes i, atrAt period df i,
        stopLossP period mult df i, df.closes[i]? with
    | some hc, some a, some s, some c =>
      if 0 < a then
        if s < hc - a * mult ∧ hc - a * mult < c then some (hc - a * mult) else some s
      else stopLossP period mult df i
    | _, _, _, _ => stopLossP period mult df i

/-- Suggested take-profit of `scan_stocks`:
`close + ATR × 2`, defined only when ATR is defined and positive. -/
def takeProfitPrice (period : ℕ) (df : Bars) (i : ℕ) : Option ℚ :=
  match df.closes[i]?, atrAt period df i with
  | some c, some a => if 0 < a then some (c + a * 2) else none
  | _, _ => none

/-- Trend-foundation persistence: at least 7 of the last 10 bars satisfy
the trend foundation (False before bar 9). -/
def trendFound10 (cfg : Config) (df : Bars) (i : ℕ) : Bool :=
  if 9 ≤ i ∧ i < df.closes.length then
    decide (7 ≤ (List.range 10).countP (fun k => trendFoundation cfg df (i - k)))
  else false

/-- MA-arrangement stability: short MA > long MA on at least 8 of the
last 10 bars (an undefined MA comparison counts as False). -/
def maStable10 (cfg : Config) (df : Bars) (i : ℕ) : Bool :=
  if 9 ≤ i ∧ i < df.closes.length then
    decide (8 ≤ (List.range 10).countP (fun k =>
      match rollingMean cfg.maShort df.closes (i - k),
          rollingMean cfg.maLong df.closes (i - k) with
      | some ms, some ml => decide (ml < ms)
      | _, _ => false))
  else false

/-- Close above the short MA on at least 7 of the last 10 bars. -/
def priceAboveShortStable10 (cfg : Config) (df : Bars) (i : ℕ) : Bool :=
  if 9 ≤ i ∧ i < df.closes.length then
    decide (7 ≤ (List.range 10).countP (fun k =>
      match df.closes[i - k]?, rollingMean cfg.maShort df.closes (i - k) with
      | some c, some ms => decide (ms < c)
      | _, _ => false))
  else false

/-- Golden cross confirmed: true on at least 3 of the last 5 bars. -/
def gcConfirmed5 (cfg : Config) (df : Bars) (i : ℕ) : Bool :=
  if 4 ≤ i ∧ i < df.closes.length then
    decide (3 ≤ (List.range 5).countP (fun k => goldenCross cfg df (i - k)))
  else false

/-- 10-bar trend strength `(close[i] − close[i−10]) / close[i−10]`,
computed only from bar 19 on (the source guards the loop at 20 bars)
and 0 whenever the baseline close is not positive. -/
def trendStrength10 (df : Bars) (i : ℕ) : ℚ :=
  if 19 ≤ i ∧ i < df.closes.length then
    if 0 < df.closes.getD (i - 10) 0 then
      (df.closes.getD i 0 - df.closes.getD (i - 10) 0) / df.closes.getD (i - 10) 0
    else 0
  else 0

/-- Volume sustained: volume above `vol_multiplier ×` 5-day volume MA on
at least 3 of the last 5 bars. -/
def volumeSustained5 (cfg : Config) (df : Bars) (i : ℕ) : Bool :=
  if 4 ≤ i ∧ i < df.closes.length then
    decide (3 ≤ (List.range 5).countP (fun k =>
      match df.volumes[i - k]?, rollingMean 5 df.volumes (i - k) with
      | some v, some mv => decide (cfg.volMult * mv < v)
      | _, _ => false))
  else false

/-- Recent pullback: the close sits more than 3% below the highest close
of the last 5 bars (False when that high is not positive). -/
def recentPullback5 (df : Bars) (i : ℕ) : Bool :=
  if 4 ≤ i ∧ i < df.closes.length then
    match rollingMax 5 df.closes i with
    | some rh =>
      if 0 < rh then decide (3/100 < (rh - df.closes.getD i 0) / rh) else false
    | none => false
  else false

/-- `valid_mask` of `calculate_scores`: trend foundation together with
the three 10-bar persistence checks. -/
def swingValid (cfg : Config) (df : Bars) (i : ℕ) : Bool :=
  trendFoundation cfg df i && trendFound10 cfg df i && maStable10 cfg df i
    && priceAboveShortStable10 cfg df i

/-- Close at most 5% above the short MA, both defined. -/
def closeLeShort105 (cfg : Config) (df : Bars) (i : ℕ) : Bool :=
  match df.closes[i]?, rollingMean cfg.maShort df.closes i with
  | some c, some ms => decide (c ≤ ms * (21/20))
  | _, _ => false

/-- Close more than 10% above the short MA, both defined. -/
def closeGtShort110 (cfg : Config) (df : Bars) (i : ℕ) : Bool :=
  match df.closes[i]?, rollingMean cfg.maShort df.closes i with
  | some c, some ms => decide (ms * (11/10) < c)
  | _, _ => false

/-- `initial_uptrend` mask of `calculate_scores`. -/
def initialUp (cfg : Config) (df : Bars) (i : ℕ) : Bool :=
  swingValid cfg df i && gcConfirmed5 cfg df i && closeLeShort105 cfg df i
    && decide (0 < trendStrength10 df i) && volumeSustained5 cfg df i
    && !recentPullback5 df i

/-- `strong_uptrend` mask of `calculate_scores`. -/
def mainUp (cfg : Config) (df : Bars) (i : ℕ) : Bool :=
  swingValid cfg df i && closeGtShort110 cfg df i
    && decide (1/20 < trendStrength10 df i) && volumeSustained5 cfg df i

/-- `pullback_buy` mask of `calculate_scores`. -/
def pullBuy (cfg : Config) (df : Bars) (i : ℕ) : Bool :=
  swingValid cfg df i && priceNearMAShort cfg df i && recentPullback5 df i

/-- `trend_weakening` mask of `calculate_scores`. -/
def weakeningMask (cfg : Config) (df : Bars) (i : ℕ) : Bool :=
  swingValid cfg df i
    && (decide (trendStrength10 df i < -(3/100)) || recentPullback5 df i)

/-- The per-bar swing-phase labels of `calculate_scores`: the five
masked assignments fire in source order on bars still labeled with the
empty string; bars failing the trend foundation keep the initial
`unqualified` label and bars passing it but matching no mask keep the
empty-string label, modelled as `unlabeled`. -/
inductive SwingPhase
  | notQualified
  | initialUptrend
  | mainUptrend
  | pullbackBuy
  | weakening
  | trending
  | unlabeled
deriving DecidableEq

/-- The `波段狀態` column value at bar `i`. -/
def swingPhase (cfg : Config) (df : Bars) (i : ℕ) : SwingPhase :=
  if trendFoundation cfg df i then
    if initialUp cfg df i then SwingPhase.initialUptrend
    else if mainUp cfg df i then SwingPhase.mainUptrend
    else if pullBuy cfg df i then SwingPhase.pullbackBuy
    else if weakeningMask cfg df i then SwingPhase.weakening
    else if swingValid cfg df i then SwingPhase.trending
    else SwingPhase.unlabeled
  else SwingPhase.notQualified

/-- The three-condition entry trigger (`新規則_進場觸發`):
short MA ≥ long MA, RSI14 ≥ 50 and volume ≥ 20-day volume MA,
every operand defined. -/
def entryTrigger (cfg : Config) (df : Bars) (i : ℕ) : Bool :=
  (match rollingMean cfg.maShort df.closes i, rollingMean cfg.maLong df.closes i with
   | some ms, some ml => decide (ml ≤ ms)
   | _, _ => false)
  && (match rsiWilder df.closes 14 i with
      | some r => decide (50 ≤ r)
      | none => false)
  && (match df.volumes[i]?, rollingMean 20 df.volumes i with
      | some v, some mv => decide (mv ≤ v)
      | _, _ => false)

/-- `Data_Error` at bar `i`: one of close, MA5, short MA, long MA or ATR
is undefined there. -/
def dataErrorAt (cfg : Config) (df : Bars) (i : ℕ) : Bool :=
  (df.closes[i]?).isNone || (rollingMean 5 df.closes i).isNone
    || (rollingMean cfg.maShort df.closes i).isNone
    || (rollingMean cfg.maLong df.closes i).isNone
    || (atrAt cfg.atrPeriod df i).isNone

/-- The long-MA slope of `calculate_scores`: 20th-from-last long MA as
baseline (0 when it is undefined or not positive); `none` models the
`NaN` slope arising from an undefined latest long MA. -/
def maLongSlope (cfg : Config) (df : Bars) : Option ℚ :=
  match rollingMean cfg.maLong df.closes (df.closes.length - 20) with
  | some m0 =>
    if 0 < m0 then
      match rollingMean cfg.maLong df.closes (df.closes.length - 1) with
      | some m1 => some ((m1 - m0) / m0)
      | none => none
    else some 0
  | none => some 0

/-- `建議持有天數` of `calculate_scores`: 28/21/14/7 by slope threshold
for series of at least 60 bars (any undefined comparison yields the
final 7), else the default 14. -/
def suggestedHoldingDays (cfg : Config) (df : Bars) : ℕ :=
  if 60 ≤ df.closes.length then
    match maLongSlope cfg df with
    | some s => if 1/20 < s then 28 else if 3/100 < s then 21 else if 1/100 < s then 14 else 7
    | none => 7
  else 14

/-- Discrete signals of `scan_stocks`: the four scored labels plus the
four terminal row labels. -/
inductive Signal
  | strongBuy
  | buy
  | watch
  | noSignal
  | noLiquidity
  | badFundamental
  | noData
  | dataError
deriving DecidableEq

/-- Phases treated as favourable in the scored branch of `scan_stocks`. -/
def goodPhase : SwingPhase → Bool
  | SwingPhase.initialUptrend => true
  | SwingPhase.mainUptrend => true
  | SwingPhase.pullbackBuy => true
  | _ => false

/-- Phases demoted in the scored branch of `scan_stocks`. -/
def demotedPhase : SwingPhase → Bool
  | SwingPhase.trending => true
  | SwingPhase.weakening => true
  | _ => false

/-- The priority-ordered decision table of `scan_stocks`. -/
def signalDecision (trigger : Bool) (phase : SwingPhase) (total : ℚ) : Signal :=
  if trigger = false then
    if 70 ≤ total ∧ goodPhase phase = true then Signal.watch
    else if 50 ≤ total then Signal.watch
    else if 0 < total then Signal.watch
    else Signal.noSignal
  else if demotedPhase phase = true then
    if 70 ≤ total then Signal.buy
    else if 50 ≤ total then Signal.watch
    else if 0 < total then Signal.watch
    else Signal.noSignal
  else
    if 70 ≤ total then Signal.strongBuy
    else if 50 ≤ total then Signal.buy
    else if 0 < total then Signal.watch
    else Signal.noSignal

/-- A result row of `scan_stocks`, restricted to the fields the
verified properties speak about. -/
structure ScanRow where
  signal : Signal
  score : ℚ
  holdingDays : ℕ

/-- Liquidity rejection of `scan_stocks`: only instruments with data and
at least 20 bars are checked, and rejection occurs when the check fails. -/
def liquidityReject (data : Option Bars) (liqOk : Bool) : Bool :=
  match data with
  | some df => decide (20 ≤ df.closes.length) && !liqOk
  | none => false

/-- The scored branch of `scan_stocks`: signal from the decision table
at the latest bar; the holding-days field carries the slope-derived
value only for buy and strong-buy signals and 0 otherwise. -/
def scoredRow (cfg : Config) (df : Bars) (bench : Option (List (ℕ × ℚ))) : ScanRow :=
  let i := df.closes.length - 1
  let total := totalScore cfg df bench i
  let sig := signalDecision (entryTrigger cfg df i) (swingPhase cfg df i) total
  ⟨sig, total,
    if sig = Signal.buy ∨ sig = Signal.strongBuy then suggestedHoldingDays cfg df else 0⟩

/-- One iteration of `scan_stocks` for a single instrument: liquidity
check, fundamentals check, data-sufficiency check and data-error check
in source order, then the scored row. -/
def scanInstrument (cfg : Config) (data : Option Bars) (liqOk fundOk : Bool)
    (bench : Option (List (ℕ × ℚ))) : ScanRow :=
  if liquidityReject data liqOk then ⟨Signal.noLiquidity, 0, 0⟩
  else if fundOk = false ∧ cfg.enableFundamentalFilter = true then
    ⟨Signal.badFundamental, 0, 0⟩
  else
    match data with
    | none => ⟨Signal.noData, 0, 0⟩
    | some df =>
      if df.closes.length < 60 then ⟨Signal.noData, 0, 0⟩
      else if dataErrorAt cfg df (df.closes.length - 1) then ⟨Signal.dataError, 0, 0⟩
      else scoredRow cfg df bench

/-- A one-bar series (used as a concrete instrument with no computable
indicators). -/
def df1 : Bars := ⟨[0], [1], [1], [1], [1]⟩

/-- A 60-bar series with strictly increasing closes `1, 2, …, 60` and
constant unit volume. -/
def df60 : Bars :=
  ⟨List.range 60,
    (List.range 60).map (fun k => (k : ℚ) + 1),
    (List.range 60).map (fun k => (k : ℚ) + 1),
    (List.range 60).map (fun k => (k : ℚ) + 1),
    List.replicate 60 1⟩

/-- A 14-bar series with constant close 100, high 105 and low 95, so the
ATR at the last bar is exactly 10. -/
def df14 : Bars :=
  ⟨List.range 14, List.replicate 14 105, List.replicate 14 95,
    List.replicate 14 100, List.replicate 14 1⟩

/-- A 14-bar series whose high, low and close coincide, so the ATR at
the last bar is exactly 0. -/
def dfFlat : Bars :=
  ⟨List.range 14, List.replicate 14 100, List.replicate 14 100,
    List.replicate 14 100, List.replicate 14 1⟩

/-- A strictly increasing 15-bar close series `1, 2, …, 15`: no bar
ever declines, so every smoothed average loss is 0. -/
def inc15 : List ℚ := (List.range 15).map (fun k => (k : ℚ) + 1)

/-- A 15-bar close series alternating `10, 11, 10, 11, …`, giving the
momentum oscillator both gains and losses. -/
def alt15 : List ℚ := (List.range 15).map (fun k => if k % 2 = 0 then 10 else 11)

/-- A 60-bar `(date, close)` series with unit closes, used as both
instrument and benchmark to exhibit a 60-row overlap. -/
def s60 : List (ℕ × ℚ) := (List.range 60).map (fun k => (k, (1 : ℚ)))

/-- A 60-bar instrument whose closes rise from 10 except for a single
one-tick dip at bar 30, with unit volume except a 10-unit spike on the
last bar: at bar 59 every entry-trigger and scoring condition needed for
a strong-buy row holds. -/
def dfBuy : Bars :=
  ⟨List.range 60,
    (List.range 60).map (fun k => if k = 30 then (38 : ℚ) else (k : ℚ) + 10),
    (List.range 60).map (fun k => if k = 30 then (38 : ℚ) else (k : ℚ) + 10),
    (List.range 60).map (fun k => if k = 30 then (38 : ℚ) else (k : ℚ) + 10),
    (List.range 60).map (fun k => if k = 59 then (10 : ℚ) else 1)⟩

theorem gainAt_nonneg (closes : List ℚ) (i : ℕ) : 0 ≤ gainAt closes i := by
  unfold gainAt
  split
  · split
    · next h => exact le_of_lt h
    · exact le_refl 0
  · exact le_refl 0

theorem lossAt_nonneg (closes : List ℚ) (i : ℕ) : 0 ≤ lossAt closes i := by
  unfold lossAt
  split
  · split
    · next h => linarith
    · exact le_refl 0
  · exact le_refl 0

theorem one_sub_inv_nat_nonneg (p : ℕ) : 0 ≤ 1 - 1 / (p : ℚ) := by
  rcases Nat.eq_zero_or_pos p with hp | hp
  · simp [hp]
  · have h1 : (1 : ℚ) ≤ (p : ℚ) := by exact_mod_cast hp
    have h2 : (1 : ℚ) / (p : ℚ) ≤ 1 := by
      rw [div_le_one (by linarith)]
      exact h1
    linarith

theorem wilderSmooth_nonneg (f : ℕ → ℚ) (period : ℕ) (hf : ∀ j, 0 ≤ f j) :
    ∀ i g, wilderSmooth f period i = some g → 0 ≤ g := by
  intro i
  induction i with
  | zero =>
    intro g hg
    simp only [wilderSmooth] at hg
    split at hg
    · have hv := Option.some.inj hg
      rw [← hv]
      refine div_nonneg (List.sum_nonneg ?_) (Nat.cast_nonneg _)
      intro x hx
      rcases List.mem_map.mp hx with ⟨j, _, rfl⟩
      exact hf j
    · exact absurd hg (by simp)
  | succ i ih =>
    intro g hg
    simp only [wilderSmooth] at hg
    split at hg
    · exact absurd hg (by simp)
    · split at hg
      · have hv := Option.some.inj hg
        rw [← hv]
        refine div_nonneg (List.sum_nonneg ?_) (Nat.cast_nonneg _)
        intro x hx
        rcases List.mem_map.mp hx with ⟨j, _, rfl⟩
        exact hf j
      · rcases hw : wilderSmooth f period i with _ | g0
        · rw [hw] at hg
          exact absurd hg (by simp)
        · rw [hw] at hg
          have hv := Option.some.inj hg
          rw [← hv]
          have h1 : (0 : ℚ) ≤ 1 / (period : ℚ) :=
            one_div_nonneg.mpr (Nat.cast_nonneg _)
          exact add_nonneg (mul_nonneg (hf _) h1)
            (mul_nonneg (ih g0 hw) (one_sub_inv_nat_nonneg period))

/-- C1: whenever the trend-foundation precondition fails on a bar, the
composite total score of that bar is 0, for every configuration,
instrument history, benchmark and bar index. -/
theorem c1_total_score_zero_without_trend (cfg : Config) (df : Bars)
    (bench : Option (List (ℕ × ℚ))) (i : ℕ)
    (h : trendFoundation cfg df i = false) : totalScore cfg df bench i = 0 := by
  simp [totalScore, h]

/-- C1 witness: a one-bar history has no short MA, so its trend
foundation fails and its total score is 0. -/
theorem c1_total_score_zero_witness :
    trendFoundation defaultConfig df1 0 = false
      ∧ totalScore defaultConfig df1 none 0 = 0 :=
  ⟨of_decide_eq_true (by with_unfolding_all rfl),
    c1_total_score_zero_without_trend defaultConfig df1 none 0
      (of_decide_eq_true (by with_unfolding_all rfl))⟩

/-- C3 counterexample: on the strictly increasing 15-bar close series
the smoothed average loss at bar 13 is 0, and the oscillator there is
undefined rather than equal to 100. -/
theorem c3_oscillator_counterexample :
    rsiWilder inc15 14 13 = none ∧ rsiWilder inc15 14 13 ≠ some 100 :=
  ⟨of_decide_eq_true (by with_unfolding_all rfl),
    of_decide_eq_true (by with_unfolding_all rfl)⟩

/-- C3 amended: at every bar where the smoothed average loss is 0, the
momentum oscillator is undefined (the source replaces a zero loss by
`NaN` before dividing). -/
theorem c3_oscillator_undefined_on_zero_loss (closes : List ℚ) (period i : ℕ)
    (h : smoothedLoss closes period i = some 0) :
    rsiWilder closes period i = none := by
  unfold rsiWilder
  split
  · rcases hg : smoothedGain closes period i with _ | g <;> simp [hg, h]
  · rfl

/-- C3 amended witness: the zero-loss hypothesis holds at bar 13 of the
strictly increasing series, so the oscillator is undefined there. -/
theorem c3_oscillator_undefined_witness :
    smoothedLoss inc15 14 13 = some 0 ∧ rsiWilder inc15 14 13 = none :=
  ⟨of_decide_eq_true (by with_unfolding_all rfl),
    c3_oscillator_undefined_on_zero_loss inc15 14 13
      (of_decide_eq_true (by with_unfolding_all rfl))⟩

/-- C4: every defined value of the momentum oscillator lies in [0, 100]. -/
theorem c4_oscillator_bounded (closes : List ℚ) (period i : ℕ) (x : ℚ)
    (h : rsiWilder closes period i = some x) : 0 ≤ x ∧ x ≤ 100 := by
  unfold rsiWilder at h
  split at h
  · split at h
    · next g l hg hl =>
      split at h
      · exact absurd h (by simp)
      · next hl0 =>
        have hxeq := Option.some.inj h
        have hgnn : 0 ≤ g := wilderSmooth_nonneg _ _ (gainAt_nonneg closes) i g hg
        have hlnn : 0 ≤ l := wilderSmooth_nonneg _ _ (lossAt_nonneg closes) i l hl
        have hlpos : 0 < l := lt_of_le_of_ne hlnn (Ne.symm hl0)
        have hrs : 0 ≤ g / l := div_nonneg hgnn (le_of_lt hlpos)
        have h1 : (1 : ℚ) ≤ 1 + g / l := by linarith
        have hle : 100 / (1 + g / l) ≤ 100 := div_le_self (by norm_num) h1
        have hposd : 0 < 100 / (1 + g / l) := div_pos (by norm_num) (by linarith)
        constructor <;> linarith
    · exact absurd h (by simp)
  · exact absurd h (by simp)

/-- C4 witness: on the alternating 15-bar series the oscillator at bar
13 is defined with value 700/13, which lies in [0, 100]. -/
theorem c4_oscillator_bounded_witness :
    (0 : ℚ) ≤ 700/13 ∧ (700/13 : ℚ) ≤ 100 :=
  c4_oscillator_bounded alt15 14 13 (700/13)
    (of_decide_eq_true (by with_unfolding_all rfl))

/-- C2 counterexample: on the strictly increasing 60-bar series the
trend foundation holds at bar 59 while the persistence conjunction
fails, and the phase assigned there is not `trending`: it is the
empty-string (unlabeled) value. -/
theorem c2_phase_counterexample :
    trendFoundation defaultConfig df60 59 = true
      ∧ swingValid defaultConfig df60 59 = false
      ∧ swingPhase defaultConfig df60 59 ≠ SwingPhase.trending
      ∧ swingPhase defaultConfig df60 59 = SwingPhase.unlabeled :=
  ⟨of_decide_eq_true (by with_unfolding_all rfl),
    of_decide_eq_true (by with_unfolding_all rfl),
    of_decide_eq_true (by with_unfolding_all rfl),
    of_decide_eq_true (by with_unfolding_all rfl)⟩

/-- C2 amended: every bar gets exactly one of seven phase values.  A bar
failing the trend foundation is `notQualified` (evaluated first), and
only such bars are; a bar passing the trend foundation on which the
persistence conjunction fails keeps the initial empty-string label
(`unlabeled`) rather than `trending`, and only such bars do. -/
theorem c2_phase_amended (cfg : Config) (df : Bars) (i : ℕ) :
    (trendFoundation cfg df i = false → swingPhase cfg df i = SwingPhase.notQualified)
    ∧ (trendFoundation cfg df i = true → swingValid cfg df i = false →
        swingPhase cfg df i = SwingPhase.unlabeled)
    ∧ (swingPhase cfg df i = SwingPhase.notQualified → trendFoundation cfg df i = false)
    ∧ (swingPhase cfg df i = SwingPhase.unlabeled → swingValid cfg df i = false) := by
  refine ⟨fun h => by simp [swingPhase, h], fun h1 h2 => ?_, ?_, ?_⟩
  · simp [swingPhase, h1, initialUp, mainUp, pullBuy, weakeningMask, h2]
  · intro h
    by_cases h1 : trendFoundation cfg df i
    · exfalso
      unfold swingPhase at h
      rw [if_pos h1] at h
      split_ifs at h
    · simpa using h1
  · intro h
    by_cases h1 : trendFoundation cfg df i
    · by_cases h2 : swingValid cfg df i
      · exfalso
        unfold swingPhase at h
        rw [if_pos h1] at h
        split_ifs at h
      · simpa using h2
    · exfalso
      unfold swingPhase at h
      rw [if_neg h1] at h
      simp at h

/-- C2 amended witness: the single-bar history has no trend foundation
at bar 0 and is `notQualified`; the increasing 60-bar history has the
trend foundation but not the persistence conjunction at bar 59 and is
`unlabeled`. -/
theorem c2_phase_amended_witness :
    swingPhase defaultConfig df1 0 = SwingPhase.notQualified
      ∧ swingPhase defaultConfig df60 59 = SwingPhase.unlabeled :=
  ⟨(c2_phase_amended defaultConfig df1 0).1
      (of_decide_eq_true (by with_unfolding_all rfl)),
    (c2_phase_amended defaultConfig df60 59).2.1
      (of_decide_eq_true (by with_unfolding_all rfl))
      (of_decide_eq_true (by with_unfolding_all rfl))⟩

theorem rollingMax_isSome (w : ℕ) (xs : List ℚ) (i : ℕ) (hw : 1 ≤ w)
    (hi : i < xs.length) : ∃ m, rollingMax w xs i = some m := by
  unfold rollingMax
  rcases hwin : (xs.take (i + 1)).drop (i + 1 - w) with _ | ⟨y, ys⟩
  · exfalso
    have hlen := congrArg List.length hwin
    simp only [List.length_drop, List.length_take, List.length_nil] at hlen
    omega
  · exact ⟨ys.foldl max y, rfl⟩

/-- C5: at every bar with defined positive ATR and defined static
stop-loss, the trailing stop is defined and at least the static
stop-loss; it either equals the static stop-loss or strictly exceeds it
while staying strictly below the current close. -/
theorem c5_trailing_stop_ratchet (period : ℕ) (mult : ℚ) (df : Bars) (i : ℕ)
    (a s c : ℚ) (ha : atrAt period df i = some a) (hpos : 0 < a)
    (hs : stopLossP period mult df i = some s) (hc : df.closes[i]? = some c) :
    ∃ t, trailingStop period mult df i = some t ∧ s ≤ t
      ∧ (t = s ∨ (s < t ∧ t < c)) := by
  have hi : i < df.closes.length := by
    rcases List.getElem?_eq_some.mp hc with ⟨hlt, _⟩
    exact hlt
  unfold trailingStop
  by_cases hn : df.closes.length ≤ 1
  · rw [if_pos hn, hs]
    exact ⟨s, rfl, le_refl s, Or.inl rfl⟩
  · rw [if_neg hn]
    obtain ⟨m, hm⟩ := rollingMax_isSome 14 df.closes i (by norm_num) hi
    simp only [hm, ha, hs, hc]
    rw [if_pos hpos]
    by_cases hcond : s < m - a * mult ∧ m - a * mult < c
    · rw [if_pos hcond]
      exact ⟨m - a * mult, rfl, le_of_lt hcond.1, Or.inr hcond⟩
    · rw [if_neg hcond]
      exact ⟨s, rfl, le_refl s, Or.inl rfl⟩

/-- C5 witness: on the constant 14-bar series with ATR 10 and close 100
the static stop-loss is 80 and the trailing stop falls back to it. -/
theorem c5_trailing_stop_ratchet_witness :
    ∃ t, trailingStop 14 2 df14 13 = some t ∧ 80 ≤ t
      ∧ (t = 80 ∨ (80 < t ∧ t < 100)) :=
  c5_trailing_stop_ratchet 14 2 df14 13 10 80 100
    (of_decide_eq_true (by with_unfolding_all rfl))
    (of_decide_eq_true (by with_unfolding_all rfl))
    (of_decide_eq_true (by with_unfolding_all rfl))
    (of_decide_eq_true (by with_unfolding_all rfl))

/-- C6: with defined positive ATR, the stop-loss is
`close − ATR × stop multiplier` and the take-profit is `close + ATR × 2`
with no dependence on the stop multiplier; in the ATR = 10, close = 100
scenario they are `100 − 10 × mult` and 120 for every multiplier; with
undefined or non-positive ATR both levels are undefined. -/
theorem c6_risk_levels :
    (∀ (period : ℕ) (mult : ℚ) (df : Bars) (i : ℕ) (a c : ℚ),
        atrAt period df i = some a → 0 < a → df.closes[i]? = some c →
          stopLossP period mult df i = some (c - a * mult)
            ∧ takeProfitPrice period df i = some (c + a * 2))
    ∧ (∀ (period : ℕ) (mult : ℚ) (df : Bars) (i : ℕ),
        atrAt period df i = some 10 → df.closes[i]? = some 100 →
          stopLossP period mult df i = some (100 - 10 * mult)
            ∧ takeProfitPrice period df i = some 120)
    ∧ (∀ (period : ℕ) (mult : ℚ) (df : Bars) (i : ℕ) (a : ℚ),
        atrAt period df i = some a → a ≤ 0 →
          stopLossP period mult df i = none ∧ takeProfitPrice period df i = none)
    ∧ (∀ (period : ℕ) (mult : ℚ) (df : Bars) (i : ℕ),
        atrAt period df i = none →
          stopLossP period mult df i = none ∧ takeProfitPrice period df i = none) := by
  refine ⟨?_, ?_, ?_, ?_⟩
  · intro period mult df i a c ha hpos hc
    constructor
    · simp [stopLossP, ha, hc, hpos]
    · simp [takeProfitPrice, ha, hc, hpos]
  · intro period mult df i ha hc
    constructor
    · simp [stopLossP, ha, hc]
    · have h120 : (100 : ℚ) + 10 * 2 = 120 := by norm_num
      simp [takeProfitPrice, ha, hc, h120]
  · intro period mult df i a ha hle
    have hnl := not_lt.mpr hle
    constructor
    · rcases hcq : df.closes[i]? with _ | c <;> simp [stopLossP, ha, hcq, hnl]
    · rcases hcq : df.closes[i]? with _ | c <;> simp [takeProfitPrice, ha, hcq, hnl]
  · intro period mult df i ha
    constructor
    · rcases hcq : df.closes[i]? with _ | c <;> simp [stopLossP, ha, hcq]
    · rcases hcq : df.closes[i]? with _ | c <;> simp [takeProfitPrice, ha, hcq]

/-- C6 witness: the scenario conjuncts evaluated on the constant 14-bar
series with ATR exactly 10 and close 100 (multipliers 2 and 3, showing
the take-profit stays 120), on the flat series with ATR exactly 0, and
at an out-of-range bar with undefined ATR. -/
theorem c6_risk_levels_witness :
    (stopLossP 14 2 df14 13 = some (100 - 10 * 2)
        ∧ takeProfitPrice 14 df14 13 = some 120)
    ∧ (stopLossP 14 3 df14 13 = some (100 - 10 * 3)
        ∧ takeProfitPrice 14 df14 13 = some 120)
    ∧ (stopLossP 14 2 dfFlat 13 = none ∧ takeProfitPrice 14 dfFlat 13 = none)
    ∧ (stopLossP 14 2 df1 5 = none ∧ takeProfitPrice 14 df1 5 = none) :=
  ⟨c6_risk_levels.2.1 14 2 df14 13
      (of_decide_eq_true (by with_unfolding_all rfl))
      (of_decide_eq_true (by with_unfolding_all rfl)),
    c6_risk_levels.2.1 14 3 df14 13
      (of_decide_eq_true (by with_unfolding_all rfl))
      (of_decide_eq_true (by with_unfolding_all rfl)),
    c6_risk_levels.2.2.1 14 2 dfFlat 13 0
      (of_decide_eq_true (by with_unfolding_all rfl))
      (of_decide_eq_true (by with_unfolding_all rfl)),
    c6_risk_levels.2.2.2 14 2 df1 5
      (of_decide_eq_true (by with_unfolding_all rfl))⟩

/-- C7: the relative-strength score is exactly 50 on every bar when the
benchmark is unavailable, and likewise when the date-aligned overlap
with the benchmark has fewer than 60 rows. -/
theorem c7_neutral_relative_strength (stock : List (ℕ × ℚ)) :
    (∀ i, relStrength stock none i = 50)
    ∧ ∀ b, (mergeOn stock b).length < 60 → ∀ i, relStrength stock (some b) i = 50 := by
  constructor
  · intro i
    rfl
  · intro b hb i
    have h : min 250 (mergeOn stock b).length < 60 :=
      lt_of_le_of_lt (min_le_right _ _) hb
    simp [relStrength, h]

/-- C7 witness: a one-bar instrument with no benchmark, and the same
instrument against a benchmark sharing no date (empty overlap). -/
theorem c7_neutral_relative_strength_witness :
    relStrength [(0, 1)] none 0 = 50 ∧ relStrength [(0, 1)] (some [(5, 1)]) 0 = 50 :=
  ⟨(c7_neutral_relative_strength [(0, 1)]).1 0,
    (c7_neutral_relative_strength [(0, 1)]).2 [(5, 1)]
      (of_decide_eq_true (by with_unfolding_all rfl)) 0⟩

theorem pctPair_unmapped (merged : List (ℕ × ℚ × ℚ)) (j : ℕ)
    (hlen : 60 ≤ merged.length)
    (hj : j < if merged.length < 250 then 60 else 250) :
    pctPair merged j = (0, 0) := by
  have hj2 : (merged.length < 250 ∧ j < 60) ∨ (250 ≤ merged.length ∧ j < 250) := by
    by_cases h : merged.length < 250 <;> simp [h] at hj <;> omega
  simp only [pctPair]
  split_ifs <;> first | rfl | (exfalso; omega)

/-- C8 counterexample: with a 60-row overlap every merged row is below
the lookback, so its percent-changes stay 0 and its ratio defaults to
1.0, which the thresholds map to 40 — not to the claimed default 50. -/
theorem c8_unmapped_counterexample :
    relStrength s60 (some s60) 0 = 40 ∧ relStrength s60 (some s60) 0 ≠ 50 :=
  ⟨of_decide_eq_true (by with_unfolding_all rfl),
    of_decide_eq_true (by with_unfolding_all rfl)⟩

/-- C8 amended: over an overlap of at least 60 rows, a bar found at
merged position `j` scores `scoreOfRatio (ratioAt merged j)` (the fixed
thresholds, with a zero benchmark percent-change treated as ratio 1.0);
if `j` is below the lookback window (insufficient history), that score
is 40, since the percent-changes stay 0 and ratio 1.0 maps to 40; a bar
absent from the overlap scores the default 50. -/
theorem c8_relative_strength_amended (stock : List (ℕ × ℚ)) (b : List (ℕ × ℚ))
    (i j : ℕ) (p : ℕ × ℚ)
    (hlen : 60 ≤ (mergeOn stock b).length)
    (hp : stock[i]? = some p) :
    ((mergeOn stock b).findIdx? (fun m => m.1 == p.1) = some j →
        relStrength stock (some b) i = scoreOfRatio (ratioAt (mergeOn stock b) j)
          ∧ (j < (if (mergeOn stock b).length < 250 then 60 else 250) →
              relStrength stock (some b) i = 40))
    ∧ ((mergeOn stock b).findIdx? (fun m => m.1 == p.1) = none →
        relStrength stock (some b) i = 50) := by
  have hmin : ¬ min 250 (mergeOn stock b).length < 60 := by
    omega
  constructor
  · intro hj
    have hval : relStrength stock (some b) i
        = scoreOfRatio (ratioAt (mergeOn stock b) j) := by
      simp [relStrength, hmin, hp, hj]
    refine ⟨hval, fun hlt => ?_⟩
    have hpz : pctPair (mergeOn stock b) j = (0, 0) :=
      pctPair_unmapped (mergeOn stock b) j hlen hlt
    have hr : ratioAt (mergeOn stock b) j = 1 := by
      simp [ratioAt, hpz]
    rw [hval, hr]
    norm_num [scoreOfRatio]
  · intro hj
    simp [relStrength, hmin, hp, hj]

/-- C8 amended witness: the 60-bar unit-close series against itself has
a 60-row overlap; bar 0 sits at merged position 0, below the lookback,
and scores 40. -/
theorem c8_relative_strength_amended_witness :
    relStrength s60 (some s60) 0 = 40 :=
  ((c8_relative_strength_amended s60 s60 0 0 (0, 1)
      (of_decide_eq_true (by with_unfolding_all rfl))
      (of_decide_eq_true (by with_unfolding_all rfl))).1
    (of_decide_eq_true (by with_unfolding_all rfl))).2
    (of_decide_eq_true (by with_unfolding_all rfl))

theorem suggestedHoldingDays_pos (cfg : Config) (df : Bars) :
    0 < suggestedHoldingDays cfg df := by
  unfold suggestedHoldingDays
  split
  · rcases hms : maLongSlope cfg df with _ | s
    · norm_num
    · simp only
      split_ifs <;> norm_num
  · norm_num

theorem scoredRow_holding (cfg : Config) (df : Bars)
    (bench : Option (List (ℕ × ℚ))) :
    ((scoredRow cfg df bench).signal = Signal.buy
        ∨ (scoredRow cfg df bench).signal = Signal.strongBuy →
      (scoredRow cfg df bench).holdingDays = suggestedHoldingDays cfg df)
    ∧ ((scoredRow cfg df bench).signal ≠ Signal.buy →
        (scoredRow cfg df bench).signal ≠ Signal.strongBuy →
        (scoredRow cfg df bench).holdingDays = 0) := by
  unfold scoredRow
  simp only
  by_cases h : signalDecision (entryTrigger cfg df (df.closes.length - 1))
      (swingPhase cfg df (df.closes.length - 1))
      (totalScore cfg df bench (df.closes.length - 1)) = Signal.buy
      ∨ signalDecision (entryTrigger cfg df (df.closes.length - 1))
          (swingPhase cfg df (df.closes.length - 1))
          (totalScore cfg df bench (df.closes.length - 1)) = Signal.strongBuy
  · constructor
    · intro _
      simp [h]
    · intro hb hsb
      rcases h with h | h
      · exact absurd h hb
      · exact absurd h hsb
  · constructor
    · intro hcontra
      exact absurd hcontra h
    · intro _ _
      simp [h]

theorem scanInstrument_spec (cfg : Config) (data : Option Bars)
    (liqOk fundOk : Bool) (bench : Option (List (ℕ × ℚ))) :
    (∃ df, data = some df
        ∧ scanInstrument cfg data liqOk fundOk bench = scoredRow cfg df bench)
    ∨ ((scanInstrument cfg data liqOk fundOk bench).holdingDays = 0
        ∧ ((scanInstrument cfg data liqOk fundOk bench).signal = Signal.noLiquidity
          ∨ (scanInstrument cfg data liqOk fundOk bench).signal = Signal.badFundamental
          ∨ (scanInstrument cfg data liqOk fundOk bench).signal = Signal.noData
          ∨ (scanInstrument cfg data liqOk fundOk bench).signal = Signal.dataError)) := by
  unfold scanInstrument
  by_cases hl : liquidityReject data liqOk
  · simp [hl]
  · by_cases hf : fundOk = false ∧ cfg.enableFundamentalFilter = true
    · simp [hl, hf]
    · rcases data with _ | df
      · simp [hl, hf]
      · by_cases h60 : df.closes.length < 60
        · simp [hl, hf, h60]
        · by_cases hde : dataErrorAt cfg df (df.closes.length - 1)
          · simp [hl, hf, h60, hde]
          · left
            exact ⟨df, rfl, by simp [hl, hf, h60, hde]⟩

/-- C10: in every emitted row, the holding-days field equals the
slope-derived suggested holding days exactly when the signal is buy or
strong-buy; rows with watch or no-signal and every terminal row
(liquidity, fundamentals, no data, data error) carry 0, and the
slope-derived value itself is always positive. -/
theorem c10_holding_days (cfg : Config) (data : Option Bars)
    (liqOk fundOk : Bool) (bench : Option (List (ℕ × ℚ))) :
    ((scanInstrument cfg data liqOk fundOk bench).signal = Signal.buy
        ∨ (scanInstrument cfg data liqOk fundOk bench).signal = Signal.strongBuy →
      ∃ df, data = some df
        ∧ (scanInstrument cfg data liqOk fundOk bench).holdingDays
            = suggestedHoldingDays cfg df)
    ∧ ((scanInstrument cfg data liqOk fundOk bench).signal = Signal.watch
        ∨ (scanInstrument cfg data liqOk fundOk bench).signal = Signal.noSignal
        ∨ (scanInstrument cfg data liqOk fundOk bench).signal = Signal.noLiquidity
        ∨ (scanInstrument cfg data liqOk fundOk bench).signal = Signal.badFundamental
        ∨ (scanInstrument cfg data liqOk fundOk bench).signal = Signal.noData
        ∨ (scanInstrument cfg data liqOk fundOk bench).signal = Signal.dataError →
      (scanInstrument cfg data liqOk fundOk bench).holdingDays = 0)
    ∧ ∀ df2 : Bars, 0 < suggestedHoldingDays cfg df2 := by
  refine ⟨?_, ?_, fun df2 => suggestedHoldingDays_pos cfg df2⟩
  · intro h
    rcases scanInstrument_spec cfg data liqOk fundOk bench with ⟨df, hdf, heq⟩ | ⟨h0, hsig⟩
    · refine ⟨df, hdf, ?_⟩
      rw [heq] at h ⊢
      exact (scoredRow_holding cfg df bench).1 h
    · exfalso
      rcases h with h | h <;> rcases hsig with h2 | h2 | h2 | h2 <;>
        rw [h] at h2 <;> simp at h2
  · intro h
    rcases scanInstrument_spec cfg data liqOk fundOk bench with ⟨df, hdf, heq⟩ | ⟨h0, _⟩
    · rw [heq] at h ⊢
      rcases h with hx | hx | hx | hx | hx | hx <;>
        exact (scoredRow_holding cfg df bench).2 (by simp [hx]) (by simp [hx])
    · exact h0

/-- C10 witness: on the concrete rising instrument the scored row is a
strong-buy and its holding-days field equals the slope-derived value;
an instrument failing the fundamentals filter gets a terminal row with
holding days 0. -/
theorem c10_holding_days_witness :
    (∃ df, (some dfBuy : Option Bars) = some df
        ∧ (scanInstrument defaultConfig (some dfBuy) true true none).holdingDays
            = suggestedHoldingDays defaultConfig df)
    ∧ (scanInstrument defaultConfig none true false none).holdingDays = 0 :=
  ⟨(c10_holding_days defaultConfig (some dfBuy) true true none).1
      (Or.inr (of_decide_eq_true (by with_unfolding_all rfl))),
    (c10_holding_days defaultConfig none true false none).2.1
      (Or.inr (Or.inr (Or.inr (Or.inl
        (of_decide_eq_true (by with_unfolding_all rfl))))))⟩

end StockScanner

